import Mathlib

/-!
Verification development for the news normalization and merge pipeline
(`pipeline/parsers.py`, `pipeline/orchestrator.py`, `api/main.py`).

The Python code is shallowly embedded: the ambient wall-clock
(`datetime.now()`) is threaded as an explicit `DateTime` value, the
translation backend (`GoogleTranslator`) is an oracle `String → Option String`
(`none` = backend failure), Python exceptions become `Except`/`Option`
values, and the SQLite table `sentiment_data` is a list of rows keyed by
`id_origem`.
-/

namespace NewsETL

/-- A Python `datetime` value (naive, as produced by `datetime.now()` and
`datetime.fromisoformat`). -/
structure DateTime where
  year : Nat
  month : Nat
  day : Nat
  hour : Nat
  minute : Nat
  second : Nat
  micro : Nat
deriving DecidableEq, Repr

/-- Numeric value of an ASCII digit character. -/
def digitVal (c : Char) : Nat := c.toNat - 48

/-- `%02d` formatting. -/
def pad2 (n : Nat) : String := if n < 10 then "0" ++ toString n else toString n

/-- Four-digit year field of `datetime.isoformat()`. -/
def pad4 (n : Nat) : String :=
  if n < 10 then "000" ++ toString n
  else if n < 100 then "00" ++ toString n
  else if n < 1000 then "0" ++ toString n
  else toString n

/-- Six-digit microsecond field of `datetime.isoformat()`. -/
def pad6 (n : Nat) : String :=
  if n < 10 then "00000" ++ toString n
  else if n < 100 then "0000" ++ toString n
  else if n < 1000 then "000" ++ toString n
  else if n < 10000 then "00" ++ toString n
  else if n < 100000 then "0" ++ toString n
  else toString n

/-- `datetime.isoformat()`: `YYYY-MM-DDTHH:MM:SS[.ffffff]`, the fractional
part printed only when the microsecond field is nonzero. -/
def isoformat (dt : DateTime) : String :=
  pad4 dt.year ++
    ("-" ++ pad2 dt.month ++ "-" ++ pad2 dt.day ++ "T" ++ pad2 dt.hour ++ ":" ++
      pad2 dt.minute ++ ":" ++ pad2 dt.second ++
      (if dt.micro = 0 then "" else "." ++ pad6 dt.micro))

/-- Read exactly `n` ASCII digits, accumulating their value. -/
def parseFixedAux (acc : Nat) : Nat → List Char → Option (Nat × List Char)
  | 0, l => some (acc, l)
  | n + 1, [] => (fun _ => none) n
  | n + 1, c :: rest =>
    if c.isDigit then parseFixedAux (acc * 10 + digitVal c) n rest else none

/-- Read exactly `n` ASCII digits. -/
def parseFixed (n : Nat) (l : List Char) : Option (Nat × List Char) :=
  parseFixedAux 0 n l

/-- Consume one expected character. -/
def expectChar (c : Char) : List Char → Option (List Char)
  | [] => none
  | a :: rest => if a = c then some rest else none

/-- Gregorian leap-year test. -/
def isLeap (y : Nat) : Bool := (y % 4 == 0 && y % 100 != 0) || y % 400 == 0

/-- Days in a month of a given year. -/
def daysInMonth (y m : Nat) : Nat :=
  if m = 2 then (if isLeap y then 29 else 28)
  else if m = 4 ∨ m = 6 ∨ m = 9 ∨ m = 11 then 30
  else 31

/-- Optional time part of an ISO string: empty, or a one-character separator
followed by `HH[:MM[:SS[.f{1..6}]]]`, as accepted by `datetime.fromisoformat`.
Returns `(hour, minute, second, microsecond)`. -/
def parseTimePart : List Char → Option (Nat × Nat × Nat × Nat)
  | [] => some (0, 0, 0, 0)
  | _ :: afterSep => do
    let (h, l) ← parseFixed 2 afterSep
    if l.isEmpty then
      pure (h, 0, 0, 0)
    else do
      let l ← expectChar ':' l
      let (mi, l) ← parseFixed 2 l
      if l.isEmpty then
        pure (h, mi, 0, 0)
      else do
        let l ← expectChar ':' l
        let (s, l) ← parseFixed 2 l
        if l.isEmpty then
          pure (h, mi, s, 0)
        else do
          let l ← expectChar '.' l
          let ds := l.takeWhile Char.isDigit
          let rest := l.dropWhile Char.isDigit
          if rest.isEmpty && decide (1 ≤ ds.length) && decide (ds.length ≤ 6) then
            pure (h, mi, s, (ds.foldl (fun a c => a * 10 + digitVal c) 0) * 10 ^ (6 - ds.length))
          else none

/-- `datetime.fromisoformat`: parse `YYYY-MM-DD` with an optional time part,
validating calendar ranges; `none` models the `ValueError` Python raises on
any other input. -/
def fromisoformat (str : String) : Option DateTime := do
  let (y, l) ← parseFixed 4 str.data
  let l ← expectChar '-' l
  let (mo, l) ← parseFixed 2 l
  let l ← expectChar '-' l
  let (d, l) ← parseFixed 2 l
  let (h, mi, s, mc) ← parseTimePart l
  if 1 ≤ y ∧ y ≤ 9999 ∧ 1 ≤ mo ∧ mo ≤ 12 ∧ 1 ≤ d ∧ d ≤ daysInMonth y mo ∧
      h ≤ 23 ∧ mi ≤ 59 ∧ s ≤ 59 then
    pure ⟨y, mo, d, h, mi, s, mc⟩
  else none

/-- Days from 0001-01-01 to the given civil date (valid dates only). -/
def daysSinceEpoch (y m d : Nat) : Nat :=
  let y1 := if m ≤ 2 then y - 1 else y
  let era := y1 / 400
  let yoe := y1 - era * 400
  let mp := if 2 < m then m - 3 else m + 9
  let doy := (153 * mp + 2) / 5 + d - 1
  let doe := yoe * 365 + yoe / 4 - yoe / 100 + doy
  era * 146097 + doe - 306

/-- Civil date from a day count since 0001-01-01. -/
def civilFromDays (z : Nat) : Nat × Nat × Nat :=
  let z2 := z + 306
  let era := z2 / 146097
  let doe := z2 % 146097
  let yoe := (doe - doe / 1460 + doe / 36524 - doe / 146096) / 365
  let y := yoe + era * 400
  let doy := doe - (365 * yoe + yoe / 4 - yoe / 100)
  let mp := (5 * doy + 2) / 153
  let d := doy - (153 * mp + 2) / 5 + 1
  let m := if mp < 10 then mp + 3 else mp - 9
  (if m ≤ 2 then y + 1 else y, m, d)

/-- Minutes from the epoch to a datetime (seconds/microseconds excluded,
matching subtraction of a whole-minute `timedelta`). -/
def totalMinutes (dt : DateTime) : Nat :=
  daysSinceEpoch dt.year dt.month dt.day * 1440 + dt.hour * 60 + dt.minute

/-- `dt - timedelta(minutes=k)`; `none` models the `OverflowError` raised
when the result would fall before `datetime.min`. -/
def subMinutes (dt : DateTime) (k : Nat) : Option DateTime :=
  if k ≤ totalMinutes dt then
    let t := totalMinutes dt - k
    let c := civilFromDays (t / 1440)
    some ⟨c.1, c.2.1, c.2.2, (t % 1440) / 60, (t % 1440) % 60, dt.second, dt.micro⟩
  else none

/-- Substring test on character lists (Python's `needle in hay`). -/
def containsAux (needle : List Char) : List Char → Bool
  | [] => needle.isEmpty
  | c :: rest => List.isPrefixOf needle (c :: rest) || containsAux needle rest

/-- Python's `needle in hay` on strings. -/
def containsSub (hay needle : String) : Bool := containsAux needle.data hay.data

/-- Read a maximal run of digits continuing a started number. -/
def readNat (acc : Nat) : List Char → Nat
  | [] => acc
  | c :: rest => if c.isDigit then readNat (acc * 10 + digitVal c) rest else acc

/-- First maximal digit run of the list, as a number. -/
def firstNatAux : List Char → Option Nat
  | [] => none
  | c :: rest => if c.isDigit then some (readNat (digitVal c) rest) else firstNatAux rest

/-- `int(re.search(r"(\d+)", s).group(1))`; `none` when the string has no
digit (where Python's `.group` on `None` raises `AttributeError`). -/
def firstNat (s : String) : Option Nat := firstNatAux s.data

/-- `extrair_data_wsj`: convert a relative phrase such as `42 min ago` into
an absolute time anchored at the scrape time; any internal failure is caught
by the bare `except` and yields the raw `scraped_at_str`. -/
def extrair_data_wsj (relative_str scraped_at_str : String) : String :=
  match fromisoformat scraped_at_str with
  | none => scraped_at_str
  | some scraped_dt =>
    if containsSub relative_str "min" then
      match firstNat relative_str with
      | none => scraped_at_str
      | some mins =>
        match subMinutes scraped_dt mins with
        | none => scraped_at_str
        | some dt => isoformat dt
    else if containsSub relative_str "hour" then
      match firstNat relative_str with
      | none => scraped_at_str
      | some hours =>
        match subMinutes scraped_dt (hours * 60) with
        | none => scraped_at_str
        | some dt => isoformat dt
    else isoformat scraped_dt

/-- Greedy `\d{1,2}` with backtracking: try two digits, and if the
continuation fails retry with one. -/
def matchNum (l : List Char) (k : Nat → List Char → Option α) : Option α :=
  (match l with
   | a :: b :: rest =>
     if a.isDigit && b.isDigit then k (digitVal a * 10 + digitVal b) rest else none
   | _ => none) <|>
  (match l with
   | a :: rest => if a.isDigit then k (digitVal a) rest else none
   | _ => none)

/-- Match `(\d{4})年(\d{1,2})月(\d{1,2})日` at the head of the list; the year
group is kept as its literal four characters (Python formats it as a string). -/
def chinesaAt (l : List Char) : Option (String × Nat × Nat) := do
  let (ys, l) ← (match l with
    | a :: b :: c :: d :: rest =>
      if a.isDigit && b.isDigit && c.isDigit && d.isDigit then
        some (String.mk [a, b, c, d], rest)
      else none
    | _ => none)
  let l ← expectChar '年' l
  matchNum l fun mo l => do
    let l ← expectChar '月' l
    matchNum l fun d l => do
      let _ ← expectChar '日' l
      pure (ys, mo, d)

/-- `re.search` for the chinese-date pattern: first matching position. -/
def chinesaSearch : List Char → Option (String × Nat × Nat)
  | [] => none
  | c :: rest => chinesaAt (c :: rest) <|> chinesaSearch rest

/-- Match `(\d{1,2})月(\d{1,2})日\s*(\d{1,2}):(\d{1,2})` at the head. -/
def weiboAt (l : List Char) : Option (Nat × Nat × Nat × Nat) :=
  matchNum l fun mo l => do
    let l ← expectChar '月' l
    matchNum l fun d l => do
      let l ← expectChar '日' l
      let l := l.dropWhile Char.isWhitespace
      matchNum l fun h l => do
        let l ← expectChar ':' l
        matchNum l fun mi _ => pure (mo, d, h, mi)

/-- `re.search` for the weibo pattern: first matching position. -/
def weiboSearch : List Char → Option (Nat × Nat × Nat × Nat)
  | [] => none
  | c :: rest => weiboAt (c :: rest) <|> weiboSearch rest

/-- `extrair_data_chinesa`: `2025年12月22日` to ISO; on no match (or any
internal error) degrade to `datetime.now().isoformat()`. -/
def extrair_data_chinesa (now : DateTime) (date_str : String) : String :=
  match chinesaSearch date_str.data with
  | some (y, m, d) => y ++ ("-" ++ pad2 m ++ "-" ++ pad2 d ++ "T00:00:00")
  | none => isoformat now

/-- `extrair_data_weibo`: `12月21日 17:11` assuming the current year, with the
January/December rollback; on no match degrade to `now`. -/
def extrair_data_weibo (now : DateTime) (date_str : String) : String :=
  match weiboSearch date_str.data with
  | some (mo, d, h, mi) =>
    let year := if now.month = 1 ∧ mo = 12 then now.year - 1 else now.year
    toString year ++ ("-" ++ pad2 mo ++ "-" ++ pad2 d ++ "T" ++ pad2 h ++ ":" ++
      pad2 mi ++ ":00")
  | none => isoformat now

/-- One raw JSON object from a collector's output file; `none` marks an
absent key. -/
structure RawItem where
  url : Option String
  title : Option String
  summary : Option String
  published_date : Option String
  scraped_at : Option String
deriving DecidableEq, Repr

/-- `traduzir_pt`, with the Google-Translate backend as an oracle; `none`
models a backend exception, on which the original text is returned. Texts
shorter than three characters are returned unchanged without calling the
backend. -/
def traduzir_pt (backend : String → Option String) (texto : String) : String :=
  if texto.length < 3 then texto else (backend texto).getD texto

/-- `get_scraped_date`: the item's `scraped_at` when present, else the
normalization wall-clock time. -/
def get_scraped_date (now : DateTime) (item : RawItem) : String :=
  item.scraped_at.getD (isoformat now)

/-- The dictionary a per-source mapper returns (before the orchestrator
stamps `data_raspagem` and `ordem_coleta`). -/
structure ParsedRecord where
  id_origem : String
  plataforma : String
  tipo_fonte : String
  pais : String
  titulo_original : Option String
  titulo_pt : Option String
  conteudo_original : String
  conteudo_pt : String
  data_publicacao : String
  data_raspagem : String
  engajamento : Nat
  url : String
deriving DecidableEq, Repr

/-- `parse_peoples_daily`. A missing required key raises `KeyError` (the
`Except.error` cases), in the dictionary literal's evaluation order:
`url` before `title` before `published_date`. `summary` falls back to the
title when absent or falsy. -/
def parse_peoples_daily (backend : String → Option String) (now : DateTime)
    (item : RawItem) : Except String ParsedRecord :=
  let conteudo :=
    match item.summary with
    | some s => if s = "" then item.title.getD "" else s
    | none => item.title.getD ""
  match item.url with
  | none => Except.error "KeyError: url"
  | some theUrl =>
    match item.title with
    | none => Except.error "KeyError: title"
    | some title =>
      match item.published_date with
      | none => Except.error "KeyError: published_date"
      | some pub =>
        Except.ok
          { id_origem := theUrl
            plataforma := "Peoples Daily"
            tipo_fonte := "Midia"
            pais := "China"
            titulo_original := some title
            titulo_pt := some (traduzir_pt backend title)
            conteudo_original := conteudo
            conteudo_pt := traduzir_pt backend conteudo
            data_publicacao := extrair_data_chinesa now pub
            data_raspagem := get_scraped_date now item
            engajamento := 0
            url := theUrl }

/-- One row of the `sentiment_data` table. -/
structure Row where
  id_origem : String
  plataforma : String
  tipo_fonte : String
  pais : String
  titulo_original : Option String
  titulo_pt : Option String
  conteudo_original : String
  conteudo_pt : String
  data_publicacao : String
  data_raspagem : String
  engajamento : Nat
  ordem_coleta : Nat
  url : String
deriving DecidableEq, Repr

/-- The orchestrator's stamping before the insert: `parsed["data_raspagem"] =
batch_date` (overwriting what the mapper computed) and
`parsed["ordem_coleta"] = index`. -/
def stampRecord (p : ParsedRecord) (batch : String) (index : Nat) : Row :=
  { id_origem := p.id_origem
    plataforma := p.plataforma
    tipo_fonte := p.tipo_fonte
    pais := p.pais
    titulo_original := p.titulo_original
    titulo_pt := p.titulo_pt
    conteudo_original := p.conteudo_original
    conteudo_pt := p.conteudo_pt
    data_publicacao := p.data_publicacao
    data_raspagem := batch
    engajamento := p.engajamento
    ordem_coleta := index
    url := p.url }

/-- The `id_origem` column of the table. -/
def keys (store : List Row) : List String := store.map Row.id_origem

/-- The `DO UPDATE SET` clause of the upsert: exactly the five columns
`engajamento`, `conteudo_pt`, `titulo_pt`, `ordem_coleta`, `data_raspagem`
are taken from the excluded (incoming) row; every other column keeps the
existing row's value. -/
def mutUpdate (x r : Row) : Row :=
  { x with
    engajamento := r.engajamento
    conteudo_pt := r.conteudo_pt
    titulo_pt := r.titulo_pt
    ordem_coleta := r.ordem_coleta
    data_raspagem := r.data_raspagem }

/-- `INSERT INTO sentiment_data VALUES (...) ON CONFLICT(id_origem) DO UPDATE
SET engajamento, conteudo_pt, titulo_pt, ordem_coleta, data_raspagem`:
insert when the key is unseen, otherwise update exactly those five columns
of the existing row. -/
def upsert (store : List Row) (r : Row) : List Row :=
  if r.id_origem ∈ keys store then
    store.map (fun x => if x.id_origem = r.id_origem then mutUpdate x r else x)
  else store ++ [r]

/-- Row of the table holding the given `id_origem`, if any. -/
def lookupRow (store : List Row) (id : String) : Option Row :=
  store.find? (fun x => decide (x.id_origem = id))

/-- `c.execute` of the upsert statement: fallible in general (storage
errors raise `sqlite3` exceptions); this is the statement's normal,
non-failing behaviour. -/
def sqlExec (store : List Row) (r : Row) : Except String (List Row) :=
  Except.ok (upsert store r)

/-- The body of `process_file`'s loop from a given enumeration index: for
each item, `try` mapper + stamping + execute, incrementing `count` on
success; any exception is caught, formatted exactly as the
`logging.error(f"Erro ao salvar item no DB ({filename}): {e}")` call does,
and the loop continues with the next item. -/
def processFrom (exec : List Row → Row → Except String (List Row))
    (mapper : RawItem → Except String ParsedRecord) (filename batch : String) :
    Nat → List RawItem → List Row × Nat × List String →
      List Row × Nat × List String
  | _, [], acc => acc
  | index, item :: rest, (store, count, log) =>
    match (do
      let parsed ← mapper item
      exec store (stampRecord parsed batch index) : Except String (List Row)) with
    | Except.ok store' =>
      processFrom exec mapper filename batch (index + 1) rest (store', count + 1, log)
    | Except.error e =>
      processFrom exec mapper filename batch (index + 1) rest
        (store, count, log ++ ["Erro ao salvar item no DB (" ++ filename ++ "): " ++ e])

/-- `process_file` after the file has been read and JSON-decoded: loop over
the enumerated items, then commit; returns the committed table, the saved
count and the error log of the run. -/
def process_file (exec : List Row → Row → Except String (List Row))
    (mapper : RawItem → Except String ParsedRecord) (filename batch : String)
    (data : List RawItem) (store : List Row) : List Row × Nat × List String :=
  processFrom exec mapper filename batch 0 data (store, 0, [])

/-- The ETL portion of `main`: one `batch_date` fixed at run start, then the
four sources processed in order against the same connection, each with its
own mapper and raw file. -/
def mainETL (exec : List Row → Row → Except String (List Row))
    (m1 m2 m3 m4 : RawItem → Except String ParsedRecord)
    (d1 d2 d3 d4 : List RawItem) (store : List Row) (batch : String) :
    List Row × List (Nat × List String) :=
  let r1 := process_file exec m1 "peoples_daily_raw.json" batch d1 store
  let r2 := process_file exec m2 "wsj_raw.json" batch d2 r1.1
  let r3 := process_file exec m3 "weibo_raw.json" batch d3 r2.1
  let r4 := process_file exec m4 "twitter_raw.json" batch d4 r3.1
  (r4.1, [(r1.2.1, r1.2.2), (r2.2.1, r2.2.2), (r3.2.1, r3.2.2), (r4.2.1, r4.2.2)])

/-- The API's `SentimentItem` response model (`api/main.py`): the columns a
response row exposes. It has no `conteudo_original` field. -/
structure SentimentItem where
  id_origem : String
  plataforma : String
  tipo_fonte : String
  pais : String
  titulo_original : Option String
  titulo_pt : Option String
  conteudo_pt : String
  data_publicacao : String
  data_raspagem : String
  engajamento : Nat
  ordem_coleta : Nat
  url : String
deriving DecidableEq, Repr

/-- FastAPI's `response_model` filtering of a row dict to `SentimentItem`. -/
def toSentimentItem (r : Row) : SentimentItem :=
  { id_origem := r.id_origem
    plataforma := r.plataforma
    tipo_fonte := r.tipo_fonte
    pais := r.pais
    titulo_original := r.titulo_original
    titulo_pt := r.titulo_pt
    conteudo_pt := r.conteudo_pt
    data_publicacao := r.data_publicacao
    data_raspagem := r.data_raspagem
    engajamento := r.engajamento
    ordem_coleta := r.ordem_coleta
    url := r.url }

/-- The dynamically built `WHERE` clause of `get_all_data`: `if pais:` means
a falsy (absent or empty) parameter adds no filter. -/
def matchesFilters (pais plataforma : Option String) (r : Row) : Bool :=
  (match pais with
   | none => true
   | some p => if p = "" then true else decide (r.pais = p)) &&
  (match plataforma with
   | none => true
   | some p => if p = "" then true else decide (r.plataforma = p))

/-- `ORDER BY data_publicacao DESC` as a relation on rows. -/
def rowDesc (a b : Row) : Prop := b.data_publicacao ≤ a.data_publicacao

instance : DecidableRel rowDesc := fun a b =>
  inferInstanceAs (Decidable (b.data_publicacao ≤ a.data_publicacao))

instance : IsTotal Row rowDesc :=
  ⟨fun a b => le_total b.data_publicacao a.data_publicacao⟩

instance : IsTrans Row rowDesc :=
  ⟨fun _ _ _ hab hbc => le_trans hbc hab⟩

/-- `GET /v1/dados`: filter by the optional `pais`/`plataforma` parameters,
sort by `data_publicacao` descending, and serialize each row through the
`SentimentItem` response model. -/
def get_all_data (store : List Row) (pais plataforma : Option String) :
    List SentimentItem :=
  ((store.filter (matchesFilters pais plataforma)).insertionSort rowDesc).map
    toSentimentItem

/-! ### Store lemmas -/

theorem mutUpdate_id_origem (x r : Row) : (mutUpdate x r).id_origem = x.id_origem := rfl

theorem keys_upsert (s : List Row) (r : Row) :
    keys (upsert s r) =
      if r.id_origem ∈ keys s then keys s else keys s ++ [r.id_origem] := by
  unfold upsert
  by_cases hc : r.id_origem ∈ keys s
  · rw [if_pos hc, if_pos hc]
    simp only [keys, List.map_map]
    refine List.map_congr_left fun x _ => ?_
    by_cases hx : x.id_origem = r.id_origem <;> simp [hx, mutUpdate]
  · rw [if_neg hc, if_neg hc]
    simp [keys]

theorem nodup_keys_upsert (s : List Row) (r : Row) (h : (keys s).Nodup) :
    (keys (upsert s r)).Nodup := by
  rw [keys_upsert]
  by_cases hc : r.id_origem ∈ keys s
  · simpa [hc] using h
  · simp only [hc, if_false, List.nodup_append]
    exact ⟨h, List.nodup_singleton _, fun a ha hb => by
      simp at hb; subst hb; exact hc ha⟩

theorem count_keys_upsert (s : List Row) (r : Row) (h : (keys s).Nodup) :
    (keys (upsert s r)).count r.id_origem = 1 := by
  rw [keys_upsert]
  by_cases hc : r.id_origem ∈ keys s
  · simp only [hc, if_true]
    exact List.count_eq_one_of_mem h hc
  · simp [hc, List.count_append, List.count_eq_zero_of_not_mem hc]

theorem lookup_some_mem (s : List Row) (i : String) (y : Row)
    (h : lookupRow s i = some y) : i ∈ keys s := by
  unfold lookupRow at h
  have hm := List.mem_of_find?_eq_some h
  have hp := List.find?_some h
  simp only [decide_eq_true_eq] at hp
  exact hp ▸ List.mem_map_of_mem Row.id_origem hm

theorem lookup_upsert (store : List Row) (r y : Row)
    (hy : lookupRow store r.id_origem = some y) :
    lookupRow (upsert store r) r.id_origem = some (mutUpdate y r) := by
  induction store with
  | nil => simp [lookupRow] at hy
  | cons a rest ih =>
    by_cases ha : a.id_origem = r.id_origem
    · have hla : lookupRow (a :: rest) r.id_origem = some a := by
        simp [lookupRow, List.find?, ha]
      have hya : a = y := Option.some.inj (hla ▸ hy)
      subst hya
      have hmem : r.id_origem ∈ keys (a :: rest) := by
        simp only [keys, List.map_cons]
        exact List.mem_cons.mpr (Or.inl ha.symm)
      simp [upsert, hmem, lookupRow, List.find?, ha, mutUpdate_id_origem]
    · have hy' : lookupRow rest r.id_origem = some y := by
        simpa [lookupRow, List.find?, ha] using hy
      have hmr : r.id_origem ∈ keys rest := lookup_some_mem rest _ y hy'
      have hmem : r.id_origem ∈ keys (a :: rest) := by
        simp only [keys, List.map_cons]
        exact List.mem_cons.mpr (Or.inr hmr)
      have hup : upsert rest r =
          rest.map (fun x => if x.id_origem = r.id_origem then mutUpdate x r else x) := by
        simp [upsert, hmr]
      have h' := ih hy'
      rw [hup] at h'
      simp only [upsert, hmem, if_true, List.map_cons, ha, if_false]
      simpa [lookupRow, List.find?, ha] using h'

/-! ### Claim theorems C1, C2 -/

/-- C1: `origin_id` is unique across the store: upserts never create a second
row for an existing `origin_id`; after any two upserts carrying the same
`origin_id` into a store whose keys are distinct, the store's key column is
still duplicate-free and contains that `origin_id` exactly once. -/
theorem origin_id_unique_after_upserts (store : List Row) (r1 r2 : Row)
    (hnd : (keys store).Nodup) (hid : r1.id_origem = r2.id_origem) :
    (keys (upsert (upsert store r1) r2)).Nodup ∧
      (keys (upsert (upsert store r1) r2)).count r1.id_origem = 1 := by
  have h1 := nodup_keys_upsert store r1 hnd
  refine ⟨nodup_keys_upsert _ r2 h1, ?_⟩
  rw [hid]
  exact count_keys_upsert _ r2 h1

/-- Sample canonical row used by concrete witnesses. -/
def rowA : Row :=
  { id_origem := "https://a"
    plataforma := "Peoples Daily"
    tipo_fonte := "Midia"
    pais := "China"
    titulo_original := some "T"
    titulo_pt := some "T"
    conteudo_original := "C"
    conteudo_pt := "C"
    data_publicacao := "2025-06-10T00:00:00"
    data_raspagem := "2025-06-15"
    engajamento := 0
    ordem_coleta := 0
    url := "https://a" }

/-- Witness for C1 at a concrete input: the empty store has duplicate-free
keys, and two upserts of `rowA` leave exactly one row keyed by its id. -/
theorem origin_id_unique_after_upserts_witness :
    (keys ([] : List Row)).Nodup ∧
      ((keys (upsert (upsert [] rowA) rowA)).Nodup ∧
        (keys (upsert (upsert [] rowA) rowA)).count rowA.id_origem = 1) :=
  ⟨by decide, origin_id_unique_after_upserts [] rowA rowA (by decide) rfl⟩

/-- C2: upserting a record whose `origin_id` already exists updates exactly
the mutable columns (`engajamento`, `conteudo_pt`, `titulo_pt`,
`ordem_coleta`, `data_raspagem` — the batch-date column) and preserves
`data_publicacao`, `titulo_original`, `conteudo_original`, `plataforma`,
`pais`, `tipo_fonte` and `url` from the stored row; hence re-running a batch
with unchanged raw input leaves every immutable field of existing rows
unchanged. -/
theorem upsert_updates_mutable_preserves_immutable (store : List Row) (r y : Row)
    (hy : lookupRow store r.id_origem = some y) :
    ∃ z, lookupRow (upsert store r) r.id_origem = some z ∧
      z.engajamento = r.engajamento ∧ z.conteudo_pt = r.conteudo_pt ∧
      z.titulo_pt = r.titulo_pt ∧ z.ordem_coleta = r.ordem_coleta ∧
      z.data_raspagem = r.data_raspagem ∧
      z.data_publicacao = y.data_publicacao ∧
      z.titulo_original = y.titulo_original ∧
      z.conteudo_original = y.conteudo_original ∧
      z.plataforma = y.plataforma ∧ z.pais = y.pais ∧
      z.tipo_fonte = y.tipo_fonte ∧ z.url = y.url :=
  ⟨mutUpdate y r, lookup_upsert store r y hy, rfl, rfl, rfl, rfl, rfl, rfl, rfl,
    rfl, rfl, rfl, rfl, rfl⟩

/-- A second batch's version of `rowA`: same `origin_id`, drifted mutable
fields, different immutable fields (which must not overwrite the stored ones). -/
def rowA2 : Row :=
  { rowA with
    engajamento := 7
    conteudo_pt := "C2"
    titulo_pt := some "T2"
    ordem_coleta := 3
    data_raspagem := "2025-06-16"
    data_publicacao := "2099-01-01T00:00:00"
    conteudo_original := "other" }

/-- Witness for C2 at a concrete input. -/
theorem upsert_updates_mutable_preserves_immutable_witness :
    lookupRow [rowA] rowA2.id_origem = some rowA ∧
      ∃ z, lookupRow (upsert [rowA] rowA2) rowA2.id_origem = some z ∧
        z.engajamento = rowA2.engajamento ∧ z.conteudo_pt = rowA2.conteudo_pt ∧
        z.titulo_pt = rowA2.titulo_pt ∧ z.ordem_coleta = rowA2.ordem_coleta ∧
        z.data_raspagem = rowA2.data_raspagem ∧
        z.data_publicacao = rowA.data_publicacao ∧
        z.titulo_original = rowA.titulo_original ∧
        z.conteudo_original = rowA.conteudo_original ∧
        z.plataforma = rowA.plataforma ∧ z.pais = rowA.pais ∧
        z.tipo_fonte = rowA.tipo_fonte ∧ z.url = rowA.url :=
  ⟨by decide, upsert_updates_mutable_preserves_immutable [rowA] rowA2 rowA (by decide)⟩

/-! ### Orchestrator lemmas -/

theorem mem_upsert (s : List Row) (r x : Row) (hx : x ∈ upsert s r) :
    x ∈ s ∨ x.data_raspagem = r.data_raspagem := by
  unfold upsert at hx
  by_cases hc : r.id_origem ∈ keys s
  · rw [if_pos hc] at hx
    obtain ⟨a, ha, hax⟩ := List.mem_map.mp hx
    by_cases h : a.id_origem = r.id_origem
    · right
      rw [← hax]
      simp [h, mutUpdate]
    · left
      rw [← hax]
      simpa [h] using ha
  · rw [if_neg hc] at hx
    rcases List.mem_append.mp hx with h | h
    · exact Or.inl h
    · right
      simp at h
      subst h
      rfl

theorem stampRecord_data_raspagem (p : ParsedRecord) (batch : String) (index : Nat) :
    (stampRecord p batch index).data_raspagem = batch := rfl

theorem mem_processFrom (mapper : RawItem → Except String ParsedRecord)
    (filename batch : String) (items : List RawItem) :
    ∀ index store count log x,
      x ∈ (processFrom sqlExec mapper filename batch index items (store, count, log)).1 →
      x ∈ store ∨ x.data_raspagem = batch := by
  induction items with
  | nil =>
    intro index store count log x hx
    simpa [processFrom] using Or.inl hx
  | cons item rest ih =>
    intro index store count log x hx
    cases hm : mapper item with
    | ok p =>
      rw [processFrom, hm] at hx
      simp only [Bind.bind, Except.bind, sqlExec] at hx
      rcases ih (index + 1) _ _ _ x hx with h | h
      · rcases mem_upsert _ _ _ h with h' | h'
        · exact Or.inl h'
        · exact Or.inr (h'.trans (stampRecord_data_raspagem p batch index))
      · exact Or.inr h
    | error e =>
      rw [processFrom, hm] at hx
      simp only [Bind.bind, Except.bind] at hx
      exact ih (index + 1) _ _ _ x hx

theorem mem_process_file (mapper : RawItem → Except String ParsedRecord)
    (filename batch : String) (data : List RawItem) (store : List Row) (x : Row)
    (hx : x ∈ (process_file sqlExec mapper filename batch data store).1) :
    x ∈ store ∨ x.data_raspagem = batch :=
  mem_processFrom mapper filename batch data 0 store 0 [] x hx

/-! ### Claim theorem C3 -/

/-- C3: every row written (inserted or updated) by one orchestrator run
carries the single `batch_date` fixed at run start, whichever of the four
sources produced it and whatever per-item `scraped_at` its mapper computed:
any row of the final store either was already present before the run or has
`data_raspagem = batch`. -/
theorem run_batch_date_uniform (m1 m2 m3 m4 : RawItem → Except String ParsedRecord)
    (d1 d2 d3 d4 : List RawItem) (store : List Row) (batch : String) (r : Row)
    (hr : r ∈ (mainETL sqlExec m1 m2 m3 m4 d1 d2 d3 d4 store batch).1) :
    r ∈ store ∨ r.data_raspagem = batch := by
  simp only [mainETL] at hr
  rcases mem_process_file m4 _ batch d4 _ r hr with h4 | h4
  · rcases mem_process_file m3 _ batch d3 _ r h4 with h3 | h3
    · rcases mem_process_file m2 _ batch d2 _ r h3 with h2 | h2
      · exact mem_process_file m1 _ batch d1 _ r h2
      · exact Or.inr h2
    · exact Or.inr h3
  · exact Or.inr h4

/-- A fixed normalization wall-clock instant for concrete runs. -/
def now0 : DateTime := ⟨2025, 6, 15, 12, 0, 0, 0⟩

/-- A translation backend that always fails (every call degrades to the
original text). -/
def backend0 : String → Option String := fun _ => none

/-- A well-formed raw Peoples-Daily item. -/
def itemY : RawItem :=
  { url := some "https://y"
    title := some "Title Y"
    summary := some "Sum Y"
    published_date := some "2025年06月10日"
    scraped_at := some "2025-06-14T09:00:00" }

/-- Witness for C3 at a concrete input: the single row produced by a
one-item run from the empty store carries the run's batch date. -/
theorem run_batch_date_uniform_witness :
    stampRecord
        { id_origem := "https://y", plataforma := "Peoples Daily",
          tipo_fonte := "Midia", pais := "China",
          titulo_original := some "Title Y", titulo_pt := some "Title Y",
          conteudo_original := "Sum Y", conteudo_pt := "Sum Y",
          data_publicacao := "2025-06-10T00:00:00",
          data_raspagem := "2025-06-14T09:00:00", engajamento := 0,
          url := "https://y" } "2025-06-15" 0 ∈ ([] : List Row) ∨
      (stampRecord
        { id_origem := "https://y", plataforma := "Peoples Daily",
          tipo_fonte := "Midia", pais := "China",
          titulo_original := some "Title Y", titulo_pt := some "Title Y",
          conteudo_original := "Sum Y", conteudo_pt := "Sum Y",
          data_publicacao := "2025-06-10T00:00:00",
          data_raspagem := "2025-06-14T09:00:00", engajamento := 0,
          url := "https://y" } "2025-06-15" 0).data_raspagem = "2025-06-15" :=
  run_batch_date_uniform (parse_peoples_daily backend0 now0)
    (parse_peoples_daily backend0 now0) (parse_peoples_daily backend0 now0)
    (parse_peoples_daily backend0 now0) [itemY] [] [] [] [] "2025-06-15" _
    (by decide)

/-! ### Per-item failure handling (C5, C6) -/

/-- Whether a mapper call succeeded. -/
def exceptOk {ε α : Type} : Except ε α → Bool
  | Except.ok _ => true
  | Except.error _ => false

/-- Count of the items of a file whose mapping succeeds. -/
def okCount (mapper : RawItem → Except String ParsedRecord) (data : List RawItem) : Nat :=
  (data.filter (fun it => exceptOk (mapper it))).length

/-- The error messages `process_file` logs for a file, in order: one entry
per failing item, naming the file and the exception — and nothing else. -/
def errLog (mapper : RawItem → Except String ParsedRecord) (filename : String)
    (data : List RawItem) : List String :=
  data.filterMap (fun it =>
    match mapper it with
    | Except.error e => some ("Erro ao salvar item no DB (" ++ filename ++ "): " ++ e)
    | Except.ok _ => none)

theorem processFrom_count_log (mapper : RawItem → Except String ParsedRecord)
    (filename batch : String) (items : List RawItem) :
    ∀ index store count log,
      (processFrom sqlExec mapper filename batch index items (store, count, log)).2.1 =
          count + okCount mapper items ∧
        (processFrom sqlExec mapper filename batch index items (store, count, log)).2.2 =
          log ++ errLog mapper filename items := by
  induction items with
  | nil => intro index store count log; simp [processFrom, okCount, errLog]
  | cons item rest ih =>
    intro index store count log
    cases hm : mapper item with
    | ok p =>
      rw [processFrom, hm]
      simp only [Bind.bind, Except.bind, sqlExec]
      obtain ⟨h1, h2⟩ := ih (index + 1) (upsert store (stampRecord p batch index))
        (count + 1) log
      constructor
      · rw [h1]
        simp [okCount, List.filter_cons, hm, exceptOk]
        omega
      · rw [h2]
        simp [errLog, List.filterMap_cons, hm]
    | error e =>
      rw [processFrom, hm]
      simp only [Bind.bind, Except.bind]
      obtain ⟨h1, h2⟩ := ih (index + 1) store count
        (log ++ ["Erro ao salvar item no DB (" ++ filename ++ "): " ++ e])
      constructor
      · rw [h1]
        simp [okCount, List.filter_cons, hm, exceptOk]
      · rw [h2]
        simp [errLog, List.filterMap_cons, hm]

theorem processFrom_total (exec : List Row → Row → Except String (List Row))
    (mapper : RawItem → Except String ParsedRecord) (filename batch : String)
    (items : List RawItem) :
    ∀ index store count log,
      (processFrom exec mapper filename batch index items (store, count, log)).2.1 +
          (processFrom exec mapper filename batch index items (store, count, log)).2.2.length =
        count + log.length + items.length := by
  induction items with
  | nil => intro index store count log; simp [processFrom]
  | cons item rest ih =>
    intro index store count log
    cases hm : mapper item with
    | ok p =>
      rw [processFrom, hm]
      simp only [Bind.bind, Except.bind]
      cases hx : exec store (stampRecord p batch index) with
      | ok store' =>
        have := ih (index + 1) store' (count + 1) log
        rw [this]
        simp only [List.length_cons]
        omega
      | error e =>
        have := ih (index + 1) store count
          (log ++ ["Erro ao salvar item no DB (" ++ filename ++ "): " ++ e])
        rw [this]
        simp only [List.length_append, List.length_cons, List.length_nil]
        omega
    | error e =>
      rw [processFrom, hm]
      simp only [Bind.bind, Except.bind]
      have := ih (index + 1) store count
        (log ++ ["Erro ao salvar item no DB (" ++ filename ++ "): " ++ e])
      rw [this]
      simp only [List.length_append, List.length_cons, List.length_nil]
      omega

/-! ### Claim C6 (amended): item failures are logged (without the position) and skipped -/

/-- C6 (amended): a mapper failure on one item is caught by `process_file`,
which logs one message naming the file and the exception — the raw item's
position is not part of the message — skips the item, and continues: the
saved count is exactly the number of items whose mapping succeeded, and the
log is exactly the per-failure messages in file order. -/
theorem item_failures_logged_and_skipped (mapper : RawItem → Except String ParsedRecord)
    (filename batch : String) (data : List RawItem) (store : List Row) :
    (process_file sqlExec mapper filename batch data store).2.1 = okCount mapper data ∧
      (process_file sqlExec mapper filename batch data store).2.2 =
        errLog mapper filename data := by
  obtain ⟨h1, h2⟩ := processFrom_count_log mapper filename batch data 0 store 0 []
  exact ⟨by simpa [process_file] using h1, by simpa [process_file] using h2⟩

/-- A malformed raw item: the mandated `title` key is absent, so the mapper
raises `KeyError`. -/
def itemBad : RawItem :=
  { url := some "https://b"
    title := none
    summary := some "s"
    published_date := some "2025年06月10日"
    scraped_at := none }

/-- Counterexample to C6 as stated: the orchestrator does NOT log the raw
item's position. Two files holding the same malformed item at different
positions (0 in the first file, 1 in the second) produce identical logs, so
the position cannot be part of what is logged; the failure itself is logged
(the log is nonempty) and the valid item is still saved in both runs. -/
theorem malformed_position_not_in_log_cex :
    (process_file sqlExec (parse_peoples_daily backend0 now0) "peoples_daily_raw.json"
          "2025-06-15" [itemBad, itemY] []).2.2 =
        (process_file sqlExec (parse_peoples_daily backend0 now0) "peoples_daily_raw.json"
          "2025-06-15" [itemY, itemBad] []).2.2 ∧
      (process_file sqlExec (parse_peoples_daily backend0 now0) "peoples_daily_raw.json"
          "2025-06-15" [itemBad, itemY] []).2.2 ≠ [] ∧
      (process_file sqlExec (parse_peoples_daily backend0 now0) "peoples_daily_raw.json"
          "2025-06-15" [itemBad, itemY] []).2.1 = 1 ∧
      (process_file sqlExec (parse_peoples_daily backend0 now0) "peoples_daily_raw.json"
          "2025-06-15" [itemBad, itemY] []).1.length = 1 := by
  decide

/-! ### Claim C5 (corrected): store write failures are caught per item -/

/-- An execution environment in which the store write fails (raises) for the
row keyed `https://y` — e.g. storage becoming unavailable for that insert. -/
def execFailY : List Row → Row → Except String (List Row) := fun s r =>
  if r.id_origem = "https://y" then Except.error "disk I/O error" else sqlExec s r

/-- A second well-formed raw Peoples-Daily item. -/
def itemZ : RawItem :=
  { url := some "https://z"
    title := some "Title Z"
    summary := some "Sum Z"
    published_date := some "2025年06月11日"
    scraped_at := some "2025-06-14T10:00:00" }

/-- Counterexample to C5 as stated: a persistent-store write failure does NOT
propagate and abort the source's commit. With the store write raising on the
first item (`itemY`), `process_file` catches the error, logs it, and
continues: the second item is still processed and committed, the saved count
is 1 and the log holds exactly one entry. -/
theorem store_write_failure_not_propagated_cex :
    (process_file execFailY (parse_peoples_daily backend0 now0) "peoples_daily_raw.json"
          "2025-06-15" [itemY, itemZ] []).1.map Row.id_origem = ["https://z"] ∧
      (process_file execFailY (parse_peoples_daily backend0 now0) "peoples_daily_raw.json"
          "2025-06-15" [itemY, itemZ] []).2.1 = 1 ∧
      (process_file execFailY (parse_peoples_daily backend0 now0) "peoples_daily_raw.json"
          "2025-06-15" [itemY, itemZ] []).2.2 =
        ["Erro ao salvar item no DB (peoples_daily_raw.json): disk I/O error"] := by
  decide

/-- C5 (amended): a store write failure while saving one item is caught by
the same handler as normalization failures — logged, item skipped, loop
continues — so `process_file` always runs to completion over the whole file:
whatever the write behaviour `exec`, every item is accounted for either in
the saved count or as one log entry. -/
theorem process_file_completes_all_items
    (exec : List Row → Row → Except String (List Row))
    (mapper : RawItem → Except String ParsedRecord) (filename batch : String)
    (data : List RawItem) (store : List Row) :
    (process_file exec mapper filename batch data store).2.1 +
        (process_file exec mapper filename batch data store).2.2.length =
      data.length := by
  simpa [process_file] using processFrom_total exec mapper filename batch data 0 store 0 []

/-! ### Claim C4 (corrected): scraped_at is computed but overwritten -/

/-- A raw item whose collector supplied a `scraped_at` far from the run's
batch date. -/
def itemS : RawItem :=
  { url := some "https://s"
    title := some "Title S"
    summary := some "Sum S"
    published_date := some "2025年06月10日"
    scraped_at := some "2025-01-01T00:00:00" }

/-- Counterexample to C4 as stated: the table has a single unified
`data_raspagem` column, and the value persisted there for an item that
supplied `scraped_at = 2025-01-01T00:00:00` is the run's batch date
`2025-06-15`, not the collector-supplied timestamp. -/
theorem persisted_scraped_at_is_batch_date_cex :
    (lookupRow (process_file sqlExec (parse_peoples_daily backend0 now0)
          "peoples_daily_raw.json" "2025-06-15" [itemS] []).1 "https://s").map
        Row.data_raspagem = some "2025-06-15" ∧
      itemS.scraped_at = some "2025-01-01T00:00:00" ∧
      ("2025-06-15" : String) ≠ "2025-01-01T00:00:00" := by
  decide

/-- C4 (amended): the mapper does record the collector-supplied `scraped_at`
(else normalization time) in the record it returns, but before persisting,
the orchestrator overwrites that field with the run's `batch_date`; the
single stored `data_raspagem` column therefore holds the batch date, not the
collector-supplied timestamp. -/
theorem scraped_at_computed_then_overwritten (backend : String → Option String)
    (now : DateTime) (item : RawItem) (p : ParsedRecord) (s : String)
    (hp : parse_peoples_daily backend now item = Except.ok p)
    (hs : item.scraped_at = some s) :
    p.data_raspagem = s ∧
      ∀ batch index, (stampRecord p batch index).data_raspagem = batch := by
  refine ⟨?_, fun batch index => rfl⟩
  unfold parse_peoples_daily at hp
  cases hu : item.url with
  | none => rw [hu] at hp; exact absurd hp (by simp)
  | some theUrl =>
    cases ht : item.title with
    | none => rw [hu, ht] at hp; exact absurd hp (by simp)
    | some title =>
      cases hpub : item.published_date with
      | none => rw [hu, ht, hpub] at hp; exact absurd hp (by simp)
      | some pub =>
        rw [hu, ht, hpub] at hp
        simp only [Except.ok.injEq] at hp
        rw [← hp]
        simp [get_scraped_date, hs]

/-- Witness for C4 (amended) at the concrete item `itemS`. -/
theorem scraped_at_computed_then_overwritten_witness :
    parse_peoples_daily backend0 now0 itemS = Except.ok
        { id_origem := "https://s", plataforma := "Peoples Daily",
          tipo_fonte := "Midia", pais := "China",
          titulo_original := some "Title S", titulo_pt := some "Title S",
          conteudo_original := "Sum S", conteudo_pt := "Sum S",
          data_publicacao := "2025-06-10T00:00:00",
          data_raspagem := "2025-01-01T00:00:00", engajamento := 0,
          url := "https://s" } ∧
      ({ id_origem := "https://s", plataforma := "Peoples Daily",
          tipo_fonte := "Midia", pais := "China",
          titulo_original := some "Title S", titulo_pt := some "Title S",
          conteudo_original := "Sum S", conteudo_pt := "Sum S",
          data_publicacao := "2025-06-10T00:00:00",
          data_raspagem := "2025-01-01T00:00:00", engajamento := 0,
          url := "https://s" } : ParsedRecord).data_raspagem =
          "2025-01-01T00:00:00" ∧
        ∀ batch index,
          (stampRecord
            { id_origem := "https://s", plataforma := "Peoples Daily",
              tipo_fonte := "Midia", pais := "China",
              titulo_original := some "Title S", titulo_pt := some "Title S",
              conteudo_original := "Sum S", conteudo_pt := "Sum S",
              data_publicacao := "2025-06-10T00:00:00",
              data_raspagem := "2025-01-01T00:00:00", engajamento := 0,
              url := "https://s" } batch index).data_raspagem = batch :=
  ⟨rfl,
    scraped_at_computed_then_overwritten backend0 now0 itemS _ "2025-01-01T00:00:00"
      rfl rfl⟩

/-! ### Claim C10: Peoples Daily content derivation -/

/-- C10: the Peoples-Daily mapper derives `conteudo_original` from the raw
`summary`, falling back to the raw `title` when `summary` is absent or
empty; the translated content is the translation of exactly that derived
text; and for every item the mapper accepts, `conteudo_original` is
non-empty whenever the item's `title` is non-empty. -/
theorem peoples_daily_content_from_summary_or_title
    (backend : String → Option String) (now : DateTime) (item : RawItem)
    (p : ParsedRecord) (hp : parse_peoples_daily backend now item = Except.ok p) :
    (∀ s, item.summary = some s → s ≠ "" → p.conteudo_original = s) ∧
      ((item.summary = none ∨ item.summary = some "") →
        p.conteudo_original = item.title.getD "") ∧
      p.conteudo_pt = traduzir_pt backend p.conteudo_original ∧
      (∀ t, item.title = some t → t ≠ "" → p.conteudo_original ≠ "") := by
  unfold parse_peoples_daily at hp
  cases hu : item.url with
  | none => rw [hu] at hp; exact absurd hp (by simp)
  | some theUrl =>
    cases ht : item.title with
    | none => rw [hu, ht] at hp; exact absurd hp (by simp)
    | some title =>
      cases hpub : item.published_date with
      | none => rw [hu, ht, hpub] at hp; exact absurd hp (by simp)
      | some pub =>
        rw [hu, ht, hpub] at hp
        simp only [Except.ok.injEq] at hp
        subst hp
        refine ⟨?_, ?_, rfl, ?_⟩
        · intro s hsum hne
          simp [hsum, ht, hne]
        · rintro (hsum | hsum) <;> simp [hsum, ht]
        · intro t htt htne
          injection htt with h
          subst h
          cases hsum : item.summary with
          | none => simpa [hsum] using htne
          | some s =>
            by_cases hse : s = ""
            · simpa [hsum, hse] using htne
            · simp [hsum, hse]

/-- Witness for C10 at a concrete item whose `summary` is present but empty:
the content falls back to the (non-empty) title. -/
theorem peoples_daily_content_witness :
    parse_peoples_daily backend0 now0
        { url := some "https://w", title := some "Hello", summary := some "",
          published_date := some "2025年06月10日", scraped_at := none } =
      Except.ok
        { id_origem := "https://w", plataforma := "Peoples Daily",
          tipo_fonte := "Midia", pais := "China",
          titulo_original := some "Hello", titulo_pt := some "Hello",
          conteudo_original := "Hello", conteudo_pt := "Hello",
          data_publicacao := "2025-06-10T00:00:00",
          data_raspagem := "2025-06-15T12:00:00", engajamento := 0,
          url := "https://w" } ∧
      ({ id_origem := "https://w", plataforma := "Peoples Daily",
          tipo_fonte := "Midia", pais := "China",
          titulo_original := some "Hello", titulo_pt := some "Hello",
          conteudo_original := "Hello", conteudo_pt := "Hello",
          data_publicacao := "2025-06-10T00:00:00",
          data_raspagem := "2025-06-15T12:00:00", engajamento := 0,
          url := "https://w" } : ParsedRecord).conteudo_original ≠ "" :=
  ⟨rfl,
    (peoples_daily_content_from_summary_or_title backend0 now0
        { url := some "https://w", title := some "Hello", summary := some "",
          published_date := some "2025年06月10日", scraped_at := none } _
        rfl).2.2.2 "Hello" rfl (by decide)⟩

/-! ### Claim C7: the date normalizers are total and degrade to a fallback -/

/-- C7: each date normalizer is a total function returning a timestamp
string (no exception escapes its boundary — every internal failure path is
a value of the embedding), and on input matching no expected pattern it
degrades to its fallback: the relative normalizer returns the collector's
observed time (re-rendered when it parses, verbatim otherwise), and the
calendar and implicit-year normalizers return the current wall-clock time. -/
theorem date_normalizers_degrade :
    (∀ rel scr, containsSub rel "min" = false → containsSub rel "hour" = false →
      extrair_data_wsj rel scr = ((fromisoformat scr).map isoformat).getD scr) ∧
    (∀ now s, chinesaSearch s.data = none →
      extrair_data_chinesa now s = isoformat now) ∧
    (∀ now s, weiboSearch s.data = none →
      extrair_data_weibo now s = isoformat now) := by
  refine ⟨?_, ?_, ?_⟩
  · intro rel scr h1 h2
    unfold extrair_data_wsj
    cases h : fromisoformat scr with
    | none => simp
    | some dt => simp [h1, h2]
  · intro now s h
    unfold extrair_data_chinesa
    rw [h]
  · intro now s h
    unfold extrair_data_weibo
    rw [h]

/-- Witness for C7 at concrete inputs: `published today` matches neither
unit and `not-a-date` is not ISO, so the relative normalizer returns the
observed string unchanged; the other normalizers fall back to `now`. -/
theorem date_normalizers_degrade_witness :
    (containsSub "published today" "min" = false ∧
      containsSub "published today" "hour" = false ∧
      extrair_data_wsj "published today" "not-a-date" = "not-a-date") ∧
    (chinesaSearch ("hello").data = none ∧
      extrair_data_chinesa now0 "hello" = isoformat now0) ∧
    (weiboSearch ("hello").data = none ∧
      extrair_data_weibo now0 "hello" = isoformat now0) :=
  ⟨⟨by decide, by decide,
    (date_normalizers_degrade.1 "published today" "not-a-date" (by decide)
      (by decide)).trans (by decide)⟩,
   ⟨by decide, date_normalizers_degrade.2.1 now0 "hello" (by decide)⟩,
   ⟨by decide, date_normalizers_degrade.2.2 now0 "hello" (by decide)⟩⟩

/-! ### Claim C8: implicit-year normalization with January rollback -/

theorem weiboSearch_sample :
    weiboSearch ("12月21日 17:11").data = some (12, 21, 17, 11) := by decide

/-- C8: on `12月21日 17:11` the implicit-year normalizer assumes the
current year, except that when the current month is January (the parsed
month being December) it assumes the previous year. -/
theorem implicit_year_current_and_rollback (now : DateTime) :
    (now.month ≠ 1 →
      extrair_data_weibo now "12月21日 17:11" =
        toString now.year ++ "-12-21T17:11:00") ∧
    (now.month = 1 →
      extrair_data_weibo now "12月21日 17:11" =
        toString (now.year - 1) ++ "-12-21T17:11:00") := by
  unfold extrair_data_weibo
  rw [weiboSearch_sample]
  constructor
  · intro h
    simp [h]
    congr 1
  · intro h
    simp [h]
    congr 1

/-- Witness for C8: observed in June 2025 the sample yields
`2025-12-21T17:11:00`; observed in January 2026 it yields the previous
year, `2025-12-21T17:11:00` again. -/
theorem implicit_year_current_and_rollback_witness :
    (⟨2025, 6, 15, 12, 0, 0, 0⟩ : DateTime).month ≠ 1 ∧
      extrair_data_weibo ⟨2025, 6, 15, 12, 0, 0, 0⟩ "12月21日 17:11" =
        "2025-12-21T17:11:00" ∧
      extrair_data_weibo ⟨2026, 1, 2, 9, 0, 0, 0⟩ "12月21日 17:11" =
        "2025-12-21T17:11:00" :=
  ⟨by decide,
    ((implicit_year_current_and_rollback ⟨2025, 6, 15, 12, 0, 0, 0⟩).1
      (by decide)).trans (by decide),
    ((implicit_year_current_and_rollback ⟨2026, 1, 2, 9, 0, 0, 0⟩).2 rfl).trans
      (by decide)⟩

/-! ### Claim C9 (corrected): query service -/

/-- Counterexample to C9 as stated: the response does not expose the full
canonical schema — `conteudo_original` is absent from the response model.
Two stores whose single rows differ only in `conteudo_original` produce
identical responses. -/
theorem query_response_omits_content_original_cex :
    get_all_data [rowA] none none =
        get_all_data [{ rowA with conteudo_original := "different text" }] none none ∧
      rowA ≠ { rowA with conteudo_original := "different text" } := by
  decide

/-- C9 (amended): the response to the query endpoint is exactly the stored
records matching the optional equality filters `pais`/`plataforma` (a
permutation of their projections), sorted by `data_publicacao` descending —
but each record is serialized through the `SentimentItem` response model,
which exposes every canonical column except `conteudo_original`. -/
theorem query_filtered_sorted_projection (store : List Row)
    (pais plataforma : Option String) :
    (get_all_data store pais plataforma).Perm
        ((store.filter (matchesFilters pais plataforma)).map toSentimentItem) ∧
      (get_all_data store pais plataforma).Pairwise
        (fun a b => b.data_publicacao ≤ a.data_publicacao) := by
  constructor
  · exact (List.perm_insertionSort rowDesc
      (store.filter (matchesFilters pais plataforma))).map toSentimentItem
  · have hs := List.sorted_insertionSort rowDesc
      (store.filter (matchesFilters pais plataforma))
    unfold get_all_data
    rw [List.pairwise_map]
    exact hs

end NewsETL
